import Mathlib

/-!
Process Lifecycle Manager — shallow embedding

This file embeds, in Lean 4, the PocketBase process-lifecycle code of the
`forge` CLI:

* `executeCommand` (src/tools/src/utils/commands.ts) — synchronous shell-out
  with `exitOnError` handling;
* `isValidPocketbaseProcess`, `checkRunningPBInstances`, `startPBServer`'s
  stdout/exit handlers, `startPocketbase`, `getPBInstance`
  (the database-server utility module);
* `killExistingProcess` (src/tools/src/utils — process helpers).

The OS (process table, shell command outcomes, spawn results) is modelled as
an explicit environment `Env` of command outcomes; JavaScript string
operations (`trim`, `toLowerCase`, `includes`, `startsWith`, `split('\n')`,
`parseInt`, the regex `/"\d+"/`) are embedded as executable functions on
`List Char` / `String`.  A TypeScript computation that may `throw` or call
`process.exit` is given the type `TsResult α`.
-/

/-- Outcome of running a TypeScript computation: a normal return value, a
propagating exception, or a `process.exit(code)` that tears the host down. -/
inductive TsResult (α : Type) where
  | ok (a : α)
  | thrown
  | exited (code : Nat)
deriving DecidableEq, Repr

/-- The two platform branches the source distinguishes
(`process.platform === 'win32'` vs everything else). -/
inductive Platform where
  | win32
  | posix
deriving DecidableEq, Repr

/-- A JavaScript number as produced by `parseInt`: an integer or `NaN`. -/
inductive JsNum where
  | int (i : Int)
  | nan
deriving DecidableEq, Repr

/-- Whitespace characters for the purposes of JS `trim` / `parseInt`
(the ones that occur in process-table output). -/
def wsChar (c : Char) : Bool :=
  c = ' ' || c = '\t' || c = '\n' || c = '\r'

/-- JS `String.prototype.trim` on a character list: strip leading and
trailing whitespace. -/
def trimChars (cs : List Char) : List Char :=
  ((cs.dropWhile wsChar).reverse.dropWhile wsChar).reverse

/-- JS `s.trim()`. -/
def trimStr (s : String) : String :=
  ⟨trimChars s.data⟩

/-- JS `s.toLowerCase()` (ASCII, which is all the source compares). -/
def lowerStr (s : String) : String :=
  ⟨s.data.map Char.toLower⟩

/-- Does `pat` occur as a contiguous run somewhere in the list? -/
def containsChars (pat : List Char) : List Char → Bool
  | [] => pat.isEmpty
  | c :: t => pat.isPrefixOf (c :: t) || containsChars pat t

/-- JS `s.includes(pat)`. -/
def containsSub (s pat : String) : Bool :=
  containsChars pat.data s.data

/-- JS `s.startsWith(pat)`. -/
def startsWithStr (s pat : String) : Bool :=
  pat.data.isPrefixOf s.data

/-- JS `s.split('\n')` on a character list. -/
def splitNl : List Char → List (List Char)
  | [] => [[]]
  | '\n' :: rest => [] :: splitNl rest
  | c :: rest =>
    match splitNl rest with
    | l :: ls => (c :: l) :: ls
    | [] => [[c]]

/-- Decimal value of a digit run. -/
def digitsToNat (ds : List Char) : Nat :=
  ds.foldl (fun n c => n * 10 + (c.toNat - '0'.toNat)) 0

/-- Core of JS `parseInt(s, 10)` after whitespace/sign handling: the longest
leading digit run, `NaN` if there is none. -/
def parseIntCore (cs : List Char) (neg : Bool) : JsNum :=
  let ds := cs.takeWhile Char.isDigit
  if ds.isEmpty then .nan
  else if neg then .int (-(digitsToNat ds : Int)) else .int (digitsToNat ds)

/-- JS `parseInt(s, 10)`: skip leading whitespace, optional sign, then the
longest leading digit run; `NaN` when no digit follows. -/
def parseIntJS (s : String) : JsNum :=
  match s.data.dropWhile wsChar with
  | '-' :: rest => parseIntCore rest true
  | '+' :: rest => parseIntCore rest false
  | cs => parseIntCore cs false

/-- First match of the regex `/"\d+"/` in a line, with the quotes stripped
and the digits parsed (`line.match(/"\d+"/)` followed by
`parseInt(match[0].replace(/"/g, ''), 10)` in the source).  `none` models
the `NaN` that an unmatched line maps to. -/
def findQuotedNum : List Char → Option Int
  | [] => none
  | '"' :: rest =>
    let ds := rest.takeWhile Char.isDigit
    if ds ≠ [] ∧ (rest.drop ds.length).head? = some '"' then
      some (digitsToNat ds)
    else
      findQuotedNum rest
  | _ :: rest => findQuotedNum rest

/-- What `spawnSync` reports back to `executeCommand`: a spawn-level error,
the exit status, and captured standard output (absent under
`stdio: 'inherit'`). -/
structure SpawnResult where
  error : Bool
  status : Int
  stdout : Option String
deriving Repr

/-- Embedding of `executeCommand` (src/tools/src/utils/commands.ts): throw on a
spawn error or a nonzero status — re-thrown to the caller when `exitOnError`
is falsy, converted to `process.exit(1)` when it is true — and otherwise
return the trimmed standard output (empty when none was captured). -/
def executeCommand (r : SpawnResult) (exitOnError : Bool) : TsResult String :=
  if r.error then
    if exitOnError then .exited 1 else .thrown
  else if r.status ≠ 0 then
    if exitOnError then .exited 1 else .thrown
  else
    .ok (trimStr (r.stdout.getD ""))

/-- The OS environment a lifecycle operation runs against: the platform tag
and the outcome of every shell command / signal the source can issue.
Signals: `killZero pid` is whether `process.kill(pid, 0)` succeeds,
`killSig pid` whether `process.kill(pid)` does. -/
structure Env where
  platform : Platform
  killZero : Int → Bool
  killSig : Int → Bool
  psComm : Int → SpawnResult
  tasklistPid : Int → SpawnResult
  tasklistImage : String → SpawnResult
  pgrep : String → SpawnResult
  pkill : String → SpawnResult
  taskkillPid : Int → SpawnResult
  taskkillImage : String → SpawnResult
  launch : Except String Int
  authOk : Bool

/-- Body of `isValidPocketbaseProcess` before its `try/catch`: liveness probe
via `process.kill(pid, 0)` (throws when the pid is dead or unsignalable),
then the per-pid inspection command, then a case-insensitive containment
check of the expected binary name. -/
def isValidPocketbaseProcessBody (env : Env) (pid : Int) : TsResult Bool :=
  if env.killZero pid then
    match env.platform with
    | .win32 =>
      match executeCommand (env.tasklistPid pid) false with
      | .ok s => .ok (containsSub (lowerStr s) "pocketbase.exe")
      | .thrown => .thrown
      | .exited c => .exited c
    | .posix =>
      match executeCommand (env.psComm pid) false with
      | .ok s => .ok (containsSub (lowerStr s) "pocketbase")
      | .thrown => .thrown
      | .exited c => .exited c
  else
    .thrown

/-- Calling `isValidPocketbaseProcess` as the source defines it: the body
wrapped in `try { ... } catch { return false }`. -/
def isValidPocketbaseProcessRun (env : Env) (pid : Int) : TsResult Bool :=
  match isValidPocketbaseProcessBody env pid with
  | .thrown => .ok false
  | x => x

/-- The boolean `isValidPocketbaseProcess` returns (its run never throws and
never exits, see `isValidPocketbaseProcessRun_ok`). -/
def isValidPocketbaseProcess (env : Env) (pid : Int) : Bool :=
  match isValidPocketbaseProcessRun env pid with
  | .ok b => b
  | _ => false

/-- PIDs the Windows branch of `checkRunningPBInstances` parses out of the
`tasklist` CSV output: one `/"\d+"/` match per line, `NaN`s filtered out. -/
def winPidsOf (s : String) : List Int :=
  (splitNl s.data).filterMap findQuotedNum

/-- PIDs the POSIX branch parses out of the `pgrep` output:
`result.trim().split('\n').map(p => parseInt(p.trim(), 10))` with `NaN`s
filtered out. -/
def posixPidsOf (s : String) : List Int :=
  ((splitNl (trimStr s).data).map (fun l => parseIntJS (trimStr ⟨l⟩))).filterMap
    (fun n => match n with | .int i => some i | .nan => none)

/-- Body of `checkRunningPBInstances` before its outer `try/catch`. -/
def checkRunningPBInstancesBody (env : Env) (exitOnError : Bool) : TsResult Bool :=
  match env.platform with
  | .win32 =>
    match executeCommand (env.tasklistImage "pocketbase") false with
    | .thrown => .thrown
    | .exited c => .exited c
    | .ok s =>
      if trimStr s = "" ∨ containsSub s "No tasks are running" then
        .ok false
      else if (winPidsOf s).length > 0 then
        if exitOnError then .exited 1 else .ok true
      else
        .ok false
  | .posix =>
    match executeCommand (env.pgrep "pocketbase serve") false with
    | .thrown => .thrown
    | .exited c => .exited c
    | .ok s =>
      if trimStr s = "" then
        .ok false
      else if ((posixPidsOf s).filter (isValidPocketbaseProcess env)).length > 0 then
        if exitOnError then .exited 1 else .ok true
      else
        .ok false

/-- Embedding of `checkRunningPBInstances`: the body's exception is swallowed
by the outer `catch`, after which control falls through to `return false`;
a `process.exit` is not catchable and propagates. -/
def checkRunningPBInstances (env : Env) (exitOnError : Bool) : TsResult Bool :=
  match checkRunningPBInstancesBody env exitOnError with
  | .thrown => .ok false
  | x => x

/-- State of the launch promise returned by `startPBServer`: JavaScript
promises settle at most once, so `resolve`/`reject` on a settled promise
are inert. -/
inductive PromiseState where
  | pending
  | resolved (pid : Int)
  | rejected (msg : String)
deriving DecidableEq, Repr

/-- Effect of `resolve(pid)` on the promise. -/
def resolveP (st : PromiseState) (pid : Int) : PromiseState :=
  match st with
  | .pending => .resolved pid
  | s => s

/-- Effect of `reject(new Error(msg))` on the promise. -/
def rejectP (st : PromiseState) (msg : String) : PromiseState :=
  match st with
  | .pending => .rejected msg
  | s => s

/-- One delivery of a stdout chunk to `startPBServer`'s `stdout.on('data')`
handler, straight from the source: a chunk starting with `Error:` rejects
with the trimmed chunk and returns early; otherwise a chunk containing
`Server started` resolves with the child pid (no early return), and a chunk
containing `bind: address already in use` then additionally calls
`process.exit(1)`.  Returns the promise state afterwards and the host exit
code, if any. -/
def onStdoutData (pid : Int) (st : PromiseState) (output : String) :
    PromiseState × Option Nat :=
  if startsWithStr output "Error:" then
    (rejectP st (trimStr output), none)
  else
    let st1 := if containsSub output "Server started" then resolveP st pid else st
    if containsSub output "bind: address already in use" then
      (st1, some 1)
    else
      (st1, none)

/-- Modelled from the spec (§4.3 stdout line classification), for comparison
with `onStdoutData`: first match wins in the priority error marker, then
address-already-in-use, then server-started. -/
def onStdoutDataSpecOrder (pid : Int) (st : PromiseState) (output : String) :
    PromiseState × Option Nat :=
  if startsWithStr output "Error:" then
    (rejectP st (trimStr output), none)
  else if containsSub output "bind: address already in use" then
    (st, some 1)
  else if containsSub output "Server started" then
    (resolveP st pid, none)
  else
    (st, none)

/-- Decimal rendering of a JS number, as template-literal interpolation
prints it. -/
def jsIntToStr (i : Int) : String :=
  if i < 0 then "-" ++ ⟨Nat.toDigits 10 i.natAbs⟩ else ⟨Nat.toDigits 10 i.natAbs⟩

/-- How `${code}` prints the `exit` event's code: `null` becomes the string
`"null"`, a number its decimal rendering. -/
def jsCodeToStr : Option Int → String
  | none => "null"
  | some i => jsIntToStr i

/-- The `exit` handler of `startPBServer`: any exit code other than `0`
(including `null` from signal-caused termination, modelled as `none`)
rejects with a message interpolating the code; an exit with code `0`
leaves the promise alone. -/
def onExit (st : PromiseState) (code : Option Int) : PromiseState :=
  if code ≠ some 0 then
    rejectP st ("PocketBase process exited with code " ++ jsCodeToStr code)
  else
    st

/-- Argument to `killExistingProcess`: the TS union `string | number`. -/
inductive ProcArg where
  | pid (p : Int)
  | keyword (k : String)
deriving Repr

/-- Body of `killExistingProcess` before its `try/catch`.  Numeric argument:
`taskkill /F /PID` on Windows (`exitOnError: false`), a direct
`process.kill` elsewhere; both return `undefined`.  Keyword argument:
Windows lists by image name and force-kills the image when matched,
returning `undefined`; POSIX runs `pgrep -f`, and when its (trimmed) output
is truthy runs `pkill -f` — with default options, so a `pkill` failure
throws — and returns `parseInt` of the pgrep output. -/
def killExistingProcessBody (env : Env) (arg : ProcArg) : TsResult (Option JsNum) :=
  match arg with
  | .pid p =>
    match env.platform with
    | .win32 =>
      match executeCommand (env.taskkillPid p) false with
      | .ok _ => .ok none
      | .thrown => .thrown
      | .exited c => .exited c
    | .posix =>
      if env.killSig p then .ok none else .thrown
  | .keyword k =>
    match env.platform with
    | .win32 =>
      match executeCommand (env.tasklistImage k) false with
      | .thrown => .thrown
      | .exited c => .exited c
      | .ok s =>
        if trimStr s ≠ "" ∧ ¬ containsSub s "No tasks are running" then
          match executeCommand (env.taskkillImage k) false with
          | .ok _ => .ok none
          | .thrown => .thrown
          | .exited c => .exited c
        else
          .ok none
    | .posix =>
      match executeCommand (env.pgrep k) false with
      | .thrown => .thrown
      | .exited c => .exited c
      | .ok s =>
        if s ≠ "" then
          match executeCommand (env.pkill k) false with
          | .ok _ => .ok (some (parseIntJS s))
          | .thrown => .thrown
          | .exited c => .exited c
        else
          .ok none

/-- Embedding of `killExistingProcess`: the body wrapped in
`try { ... } catch { }`, so an exception collapses to `undefined`. -/
def killExistingProcess (env : Env) (arg : ProcArg) : TsResult (Option JsNum) :=
  match killExistingProcessBody env arg with
  | .thrown => .ok none
  | x => x

/-- The cleanup closure `() => { killExistingProcess(pbPid) }` that
`startPocketbase` returns on a successful launch: it discards the
Terminator's return value. -/
def pbCleanup (env : Env) (pbPid : Int) : TsResult Unit :=
  match killExistingProcess env (.pid pbPid) with
  | .ok _ => .ok ()
  | .thrown => .thrown
  | .exited c => .exited c

/-- Result of `startPocketbase`: `null` when an instance is already running,
a cleanup closure holding the launched pid on success, or a fatal
`process.exit` from the `catch` block. -/
inductive StartPBOutcome where
  | alreadyRunning
  | started (pid : Int)
  | fatalExit (code : Nat)
deriving DecidableEq, Repr

/-- Embedding of `startPocketbase`: probe with `exitOnError = false`; if
running, return `null`; else await the launch (its settled outcome is
`env.launch`) and return the cleanup closure; any rejection or exception is
caught and converted to `process.exit(1)`. -/
def startPocketbase (env : Env) : StartPBOutcome :=
  match checkRunningPBInstances env false with
  | .ok true => .alreadyRunning
  | .ok false =>
    match env.launch with
    | .ok pid => .started pid
    | .error _ => .fatalExit 1
  | .thrown => .fatalExit 1
  | .exited c => .fatalExit c

/-- Embedding of `getPBInstance`, projected onto the `killPB` capability it
returns: the pid held by the cleanup closure, or `none` when `killPB` is
`null`.  With `createNewInstance = false` the orchestration flow is not
invoked at all; an authentication failure exits the host with code 1. -/
def getPBInstanceKillPB (env : Env) (createNewInstance : Bool) : TsResult (Option Int) :=
  let killPB : TsResult (Option Int) :=
    if createNewInstance then
      match startPocketbase env with
      | .alreadyRunning => .ok none
      | .started pid => .ok (some pid)
      | .fatalExit c => .exited c
    else
      .ok none
  match killPB with
  | .ok k => if env.authOk then .ok k else .exited 1
  | x => x

/-- How a check's result reads to the caller: `true` when the probe found an
instance — either by returning `true` or by exiting the host with the
"already running" message. -/
def reportsRunning : TsResult Bool → Bool
  | .ok b => b
  | .exited _ => true
  | .thrown => false

/-- The pid list the POSIX probe works from: the parsed `pgrep` output, or
the empty list when the command failed. -/
def posixPidsEnv (env : Env) : List Int :=
  match executeCommand (env.pgrep "pocketbase serve") false with
  | .ok s => posixPidsOf s
  | _ => []

/-- A concrete environment for witnesses: POSIX host on which pid 123 is a
live `pocketbase` process and pid 456 is a live `node` process, with
`pgrep -f "pocketbase serve"` reporting both. -/
def envDemo : Env where
  platform := .posix
  killZero := fun p => p = 123 || p = 456
  killSig := fun p => p = 123
  psComm := fun p => ⟨false, 0, some (if p = 123 then "pocketbase" else "node")⟩
  tasklistPid := fun _ => ⟨false, 1, none⟩
  tasklistImage := fun _ => ⟨false, 1, none⟩
  pgrep := fun _ => ⟨false, 0, some "123\n456\n"⟩
  pkill := fun _ => ⟨false, 0, none⟩
  taskkillPid := fun _ => ⟨false, 0, none⟩
  taskkillImage := fun _ => ⟨false, 0, none⟩
  launch := .ok 999
  authOk := true

/-- A concrete environment for witnesses: POSIX host with an empty process
table (`pgrep` exits 1, every signal fails, the launch succeeds). -/
def envEmpty : Env where
  platform := .posix
  killZero := fun _ => false
  killSig := fun _ => false
  psComm := fun _ => ⟨false, 1, none⟩
  tasklistPid := fun _ => ⟨false, 1, none⟩
  tasklistImage := fun _ => ⟨false, 1, none⟩
  pgrep := fun _ => ⟨false, 1, none⟩
  pkill := fun _ => ⟨false, 1, none⟩
  taskkillPid := fun _ => ⟨false, 1, none⟩
  taskkillImage := fun _ => ⟨false, 1, none⟩
  launch := .ok 999
  authOk := true

theorem executeCommand_false_ne_exited (r : SpawnResult) (c : Nat) :
    executeCommand r false ≠ .exited c := by
  unfold executeCommand
  split
  · simp
  · split <;> simp

theorem executeCommand_false_cases (r : SpawnResult) :
    executeCommand r false = .thrown ∨
      executeCommand r false = .ok (trimStr (r.stdout.getD "")) := by
  unfold executeCommand
  split
  · simp
  · split <;> simp

theorem isValidPocketbaseProcessBody_ne_exited (env : Env) (pid : Int) (c : Nat) :
    isValidPocketbaseProcessBody env pid ≠ .exited c := by
  unfold isValidPocketbaseProcessBody
  split
  · cases env.platform
    · rcases executeCommand_false_cases (env.tasklistPid pid) with h | h <;> simp [h]
    · rcases executeCommand_false_cases (env.psComm pid) with h | h <;> simp [h]
  · simp

theorem isValidPocketbaseProcessRun_ok (env : Env) (pid : Int) :
    isValidPocketbaseProcessRun env pid = .ok (isValidPocketbaseProcess env pid) := by
  unfold isValidPocketbaseProcess isValidPocketbaseProcessRun
  cases hb : isValidPocketbaseProcessBody env pid with
  | ok b => rfl
  | thrown => rfl
  | exited c => exact absurd hb (isValidPocketbaseProcessBody_ne_exited env pid c)

theorem killExistingProcessBody_ne_exited (env : Env) (arg : ProcArg) (c : Nat) :
    killExistingProcessBody env arg ≠ .exited c := by
  cases arg with
  | pid p =>
    cases hp : env.platform <;> simp only [killExistingProcessBody, hp]
    · rcases executeCommand_false_cases (env.taskkillPid p) with h | h <;> simp [h]
    · split <;> simp
  | keyword k =>
    cases hp : env.platform <;> simp only [killExistingProcessBody, hp]
    · rcases executeCommand_false_cases (env.tasklistImage k) with h | h <;> simp only [h]
      · simp
      · split
        · rcases executeCommand_false_cases (env.taskkillImage k) with h2 | h2 <;> simp [h2]
        · simp
    · rcases executeCommand_false_cases (env.pgrep k) with h | h <;> simp only [h]
      · simp
      · split
        · rcases executeCommand_false_cases (env.pkill k) with h2 | h2 <;> simp [h2]
        · simp

theorem killExistingProcess_ok (env : Env) (arg : ProcArg) :
    ∃ v, killExistingProcess env arg = .ok v := by
  unfold killExistingProcess
  cases hb : killExistingProcessBody env arg with
  | ok v => exact ⟨v, rfl⟩
  | thrown => exact ⟨none, rfl⟩
  | exited c => exact absurd hb (killExistingProcessBody_ne_exited env arg c)

/-- C1 (counterexample): the chunk `"Server started bind: address already in
use"` matches both the server-started and the address-in-use patterns.  The
claim's first-match-wins priority (error marker, then address-in-use, then
server-started) predicts that only the conflict action fires and the promise
stays pending — as `onStdoutDataSpecOrder` computes — but the source both
resolves the promise and terminates the host. -/
theorem C1_counterexample :
    onStdoutData 7 .pending "Server started bind: address already in use" =
        (.resolved 7, some 1) ∧
      onStdoutDataSpecOrder 7 .pending "Server started bind: address already in use" =
        (.pending, some 1) := by
  decide

/-- C1 (amended): the stdout handler checks the patterns in the source order
error marker, server-started, address-in-use, and only the error branch
short-circuits: a chunk beginning with `Error:` rejects with the trimmed
chunk and nothing else happens; otherwise a chunk containing
`Server started` resolves with the child pid, and — independently, not
exclusively — a chunk containing `bind: address already in use` exits the
host with code 1. -/
theorem C1_amended (pid : Int) (st : PromiseState) (out : String) :
    (startsWithStr out "Error:" = true →
      onStdoutData pid st out = (rejectP st (trimStr out), none))
  ∧ (startsWithStr out "Error:" = false → containsSub out "Server started" = true →
      (onStdoutData pid st out).1 = resolveP st pid)
  ∧ (startsWithStr out "Error:" = false → containsSub out "Server started" = false →
      (onStdoutData pid st out).1 = st)
  ∧ ((onStdoutData pid st out).2 = some 1 ↔
      startsWithStr out "Error:" = false ∧
        containsSub out "bind: address already in use" = true) := by
  rcases Bool.eq_false_or_eq_true (startsWithStr out "Error:") with h1 | h1 <;>
    rcases Bool.eq_false_or_eq_true (containsSub out "Server started") with h2 | h2 <;>
    rcases Bool.eq_false_or_eq_true
      (containsSub out "bind: address already in use") with h3 | h3 <;>
    simp [onStdoutData, h1, h2, h3]

/-- Witness for `C1_amended` at a concrete chunk: a pure conflict line exits
the host. -/
theorem C1_amended_witness :
    (onStdoutData 7 .pending "bind: address already in use").2 = some 1 :=
  (C1_amended 7 .pending "bind: address already in use").2.2.2.mpr
    ⟨by decide, by decide⟩

/-- C2 (counterexample): on a POSIX host where `pgrep` reports pids 123 and
456 and pid 123 verifies as a genuine `pocketbase` process, calling the
Existence Probe with `exitOnError = true` (its default) terminates the host
process with exit code 1 — contradicting the claim that it never terminates
the host on any platform or process-table state. -/
theorem C2_counterexample :
    checkRunningPBInstances envDemo true = .exited 1 := by
  decide

/-- C2 (amended): the Existence Probe performs read-only process inspection
in the sense that with `exitOnError = false` it always returns a boolean
(never throws, never exits); with `exitOnError = true` it terminates the
host with exit code 1 exactly when the `exitOnError = false` run would have
reported an instance running. -/
theorem C2_amended (env : Env) :
    (∃ b, checkRunningPBInstances env false = .ok b) ∧
      (checkRunningPBInstances env true = .exited 1 ↔
        checkRunningPBInstances env false = .ok true) := by
  cases hp : env.platform <;>
    simp only [checkRunningPBInstances, checkRunningPBInstancesBody, hp]
  · rcases executeCommand_false_cases (env.tasklistImage "pocketbase") with h | h <;>
      simp only [h]
    · simp
    · split_ifs <;> simp_all
  · rcases executeCommand_false_cases (env.pgrep "pocketbase serve") with h | h <;>
      simp only [h]
    · simp
    · split_ifs <;> simp_all

/-- Witness for `C2_amended` at the demo environment. -/
theorem C2_amended_witness :
    (∃ b, checkRunningPBInstances envDemo false = .ok b) ∧
      (checkRunningPBInstances envDemo true = .exited 1 ↔
        checkRunningPBInstances envDemo false = .ok true) :=
  C2_amended envDemo

/-- C6: a stdout chunk beginning with `Error:` rejects the pending launch
promise with exactly the trimmed chunk as message, resolves nothing, and
does not exit the host. -/
theorem C6_error_chunk_rejects (pid : Int) (out : String)
    (h : startsWithStr out "Error:" = true) :
    onStdoutData pid .pending out = (.rejected (trimStr out), none) := by
  simp [onStdoutData, h, rejectP]

/-- Witness for `C6_error_chunk_rejects` at the spec's scenario chunk. -/
theorem C6_witness :
    onStdoutData 7 .pending "Error: cannot open database" =
      (.rejected "Error: cannot open database", none) :=
  C6_error_chunk_rejects 7 "Error: cannot open database" (by decide)

/-- C9: the `exit` handler rejects the pending launch promise for every exit
code other than `0` — including the `null` code of signal-caused
termination — with the message `PocketBase process exited with code <code>`,
and leaves the promise pending on exit code `0`. -/
theorem C9_nonzero_exit_rejects (code : Option Int) (h : code ≠ some 0) :
    onExit .pending code =
        .rejected ("PocketBase process exited with code " ++ jsCodeToStr code) ∧
      onExit .pending (some 0) = .pending := by
  constructor
  · simp [onExit, h, rejectP]
  · simp [onExit]

/-- Witness for `C9_nonzero_exit_rejects` at the `null` exit code. -/
theorem C9_witness :
    onExit .pending none = .rejected "PocketBase process exited with code null" :=
  (C9_nonzero_exit_rejects none (by decide)).1

theorem digit_not_ws {c : Char} (h : c.isDigit = true) : wsChar c = false := by
  by_contra hw
  rw [Bool.not_eq_false] at hw
  simp only [wsChar, Bool.or_eq_true, decide_eq_true_eq] at hw
  rcases hw with ((rfl | rfl) | rfl) | rfl <;> exact absurd h (by decide)

theorem digit_ne_dash {c : Char} (h : c.isDigit = true) : c ≠ '-' := by
  rintro rfl
  exact absurd h (by decide)

theorem digit_ne_plus {c : Char} (h : c.isDigit = true) : c ≠ '+' := by
  rintro rfl
  exact absurd h (by decide)

theorem takeWhile_digits_append (l₁ l₂ : List Char)
    (h2 : ∀ c ∈ l₁, c.isDigit = true)
    (h3 : l₂ = [] ∨ l₂.head? = some '\n') :
    (l₁ ++ l₂).takeWhile Char.isDigit = l₁ := by
  induction l₁ with
  | nil =>
    rcases h3 with rfl | hh
    · rfl
    · cases l₂ with
      | nil => rfl
      | cons d t =>
        simp only [List.head?_cons, Option.some.injEq] at hh
        subst hh
        simp [List.takeWhile_cons]
  | cons c cs ih =>
    have hc : c.isDigit = true := h2 c (by simp)
    simp [List.takeWhile_cons, hc, ih (fun d hd => h2 d (by simp [hd]))]

theorem parseIntJS_leading_digits (s : String) (l₁ l₂ : List Char)
    (hdata : s.data = l₁ ++ l₂) (h1 : l₁ ≠ [])
    (h2 : ∀ c ∈ l₁, c.isDigit = true)
    (h3 : l₂ = [] ∨ l₂.head? = some '\n') :
    parseIntJS s = .int (digitsToNat l₁) := by
  obtain ⟨c, cs, rfl⟩ : ∃ c cs, l₁ = c :: cs := by
    cases l₁ with
    | nil => exact absurd rfl h1
    | cons c cs => exact ⟨c, cs, rfl⟩
  have hcd : c.isDigit = true := h2 c (by simp)
  have hw : wsChar c = false := digit_not_ws hcd
  unfold parseIntJS
  rw [hdata]
  rw [List.cons_append, List.dropWhile_cons, hw]
  simp only [Bool.false_eq_true, if_false]
  split
  · rename_i rest heq
    injection heq with hc _
    exact absurd hc (digit_ne_dash hcd)
  · rename_i rest heq
    injection heq with hc _
    exact absurd hc (digit_ne_plus hcd)
  · unfold parseIntCore
    rw [← List.cons_append, takeWhile_digits_append (c :: cs) l₂ h2 h3]
    simp

theorem posixPidsOf_trim_empty (s : String) (ht : trimStr s = "") :
    posixPidsOf s = [] := by
  unfold posixPidsOf
  rw [ht]
  rfl

theorem pbCleanup_ok (env : Env) (p : Int) : pbCleanup env p = .ok () := by
  obtain ⟨v, hv⟩ := killExistingProcess_ok env (.pid p)
  simp [pbCleanup, hv]

/-- C3: the Identity Verifier's call never throws and never exits — its run
returns the boolean it computes — and that boolean is `true` precisely when
the zero-signal liveness probe succeeds, the platform's inspection command
succeeds, and its output case-insensitively contains the expected binary
name (`pocketbase.exe` on Windows, `pocketbase` elsewhere); every failure
path yields `false`. -/
theorem C3_verifier_characterisation (env : Env) (pid : Int) :
    isValidPocketbaseProcessRun env pid = .ok (isValidPocketbaseProcess env pid) ∧
      (isValidPocketbaseProcess env pid = true ↔
        env.killZero pid = true ∧
          ((env.platform = .win32 ∧ ∃ s,
              executeCommand (env.tasklistPid pid) false = .ok s ∧
                containsSub (lowerStr s) "pocketbase.exe" = true) ∨
           (env.platform = .posix ∧ ∃ s,
              executeCommand (env.psComm pid) false = .ok s ∧
                containsSub (lowerStr s) "pocketbase" = true))) := by
  refine ⟨isValidPocketbaseProcessRun_ok env pid, ?_⟩
  by_cases hk : env.killZero pid = true
  case neg =>
    simp [isValidPocketbaseProcess, isValidPocketbaseProcessRun,
      isValidPocketbaseProcessBody, hk]
  case pos =>
    cases hp : env.platform
    · rcases executeCommand_false_cases (env.tasklistPid pid) with h | h <;>
        simp [isValidPocketbaseProcess, isValidPocketbaseProcessRun,
          isValidPocketbaseProcessBody, hk, hp, h]
    · rcases executeCommand_false_cases (env.psComm pid) with h | h <;>
        simp [isValidPocketbaseProcess, isValidPocketbaseProcessRun,
          isValidPocketbaseProcessBody, hk, hp, h]

/-- Witness for `C3_verifier_characterisation`: on the demo environment, the
genuine pid verifies and the characterisation is inhabited concretely. -/
theorem C3_witness :
    isValidPocketbaseProcess envDemo 123 = true :=
  (C3_verifier_characterisation envDemo 123).2.mpr
    ⟨by decide, Or.inr ⟨rfl, "pocketbase", by decide, by decide⟩⟩

/-- C5: detection is fail-open — whenever the platform's process-listing
command throws (spawn error or nonzero exit) or its output parses to no
pids, the Existence Probe returns `ok false` ("not running"), for either
`exitOnError` mode, instead of propagating an error. -/
theorem C5_fail_open (env : Env) (e : Bool) :
    (env.platform = .posix →
      (executeCommand (env.pgrep "pocketbase serve") false = .thrown ∨
        ∃ s, executeCommand (env.pgrep "pocketbase serve") false = .ok s ∧
          posixPidsOf s = []) →
      checkRunningPBInstances env e = .ok false)
  ∧ (env.platform = .win32 →
      (executeCommand (env.tasklistImage "pocketbase") false = .thrown ∨
        ∃ s, executeCommand (env.tasklistImage "pocketbase") false = .ok s ∧
          winPidsOf s = []) →
      checkRunningPBInstances env e = .ok false) := by
  constructor
  · intro hp hf
    rcases hf with h | ⟨s, h, hpids⟩ <;>
      simp only [checkRunningPBInstances, checkRunningPBInstancesBody, hp, h]
    by_cases ht : trimStr s = ""
    · simp [ht]
    · simp [ht, hpids]
  · intro hp hf
    rcases hf with h | ⟨s, h, hpids⟩ <;>
      simp only [checkRunningPBInstances, checkRunningPBInstancesBody, hp, h]
    by_cases ht : trimStr s = "" ∨ containsSub s "No tasks are running" = true
    · simp [ht]
    · simp [ht, hpids]

/-- Witness for `C5_fail_open`: on the empty environment, where `pgrep`
exits nonzero, the probe reports not running even with `exitOnError`. -/
theorem C5_witness :
    checkRunningPBInstances envEmpty true = .ok false :=
  (C5_fail_open envEmpty true).1 rfl (Or.inl (by decide))

/-- C8: the cleanup capability `() => killExistingProcess(pbPid)` returned
by `startPocketbase` succeeds on every invocation — in particular on two
successive calls against possibly different process-table states, covering
the call made after the process has already exited. -/
theorem C8_cleanup_idempotent (env1 env2 : Env) (p : Int) :
    pbCleanup env1 p = .ok () ∧ pbCleanup env2 p = .ok () :=
  ⟨pbCleanup_ok env1 p, pbCleanup_ok env2 p⟩

/-- Witness for `C8_cleanup_idempotent`: first call on a table where the pid
is alive, second on one where it has already exited. -/
theorem C8_witness :
    pbCleanup envDemo 123 = .ok () ∧ pbCleanup envEmpty 123 = .ok () :=
  C8_cleanup_idempotent envDemo envEmpty 123

theorem filter_length_pos_iff (l : List Int) (f : Int → Bool) :
    0 < (l.filter f).length ↔ ∃ p ∈ l, f p = true := by
  rw [List.length_pos]
  constructor
  · intro h
    cases hf : l.filter f with
    | nil => exact absurd hf h
    | cons x t =>
      have hx : x ∈ l.filter f := by rw [hf]; exact List.mem_cons_self x t
      rw [List.mem_filter] at hx
      exact ⟨x, hx.1, hx.2⟩
  · rintro ⟨p, hp, hfp⟩ hnil
    have hmem : p ∈ l.filter f := List.mem_filter.mpr ⟨hp, hfp⟩
    rw [hnil] at hmem
    exact absurd hmem (List.not_mem_nil p)

/-- C4: on POSIX the probe reports running exactly when some pid parsed from
the `pgrep` output passes the Identity Verifier (so every reported pid goes
through it); a failed or empty `pgrep` yields `ok false`; on Windows the
probe reports running exactly when the image-name `tasklist` output parses
to a nonempty pid list, and its result depends on nothing but that
`tasklist` outcome — no per-pid verification. -/
theorem C4_probe_verification (env : Env) (e : Bool) :
    (env.platform = .posix →
      (reportsRunning (checkRunningPBInstances env e) = true ↔
        ∃ p ∈ posixPidsEnv env, isValidPocketbaseProcess env p = true))
  ∧ (env.platform = .posix →
      executeCommand (env.pgrep "pocketbase serve") false = .thrown ∨
        (∃ s, executeCommand (env.pgrep "pocketbase serve") false = .ok s ∧
          trimStr s = "") →
      checkRunningPBInstances env e = .ok false)
  ∧ (env.platform = .win32 →
      (reportsRunning (checkRunningPBInstances env e) = true ↔
        ∃ s, executeCommand (env.tasklistImage "pocketbase") false = .ok s ∧
          ¬(trimStr s = "" ∨ containsSub s "No tasks are running" = true) ∧
          winPidsOf s ≠ []))
  ∧ (∀ env' : Env, env.platform = .win32 → env'.platform = .win32 →
      env'.tasklistImage "pocketbase" = env.tasklistImage "pocketbase" →
      checkRunningPBInstances env e = checkRunningPBInstances env' e) := by
  refine ⟨?_, ?_, ?_, ?_⟩
  · intro hp
    rcases executeCommand_false_cases (env.pgrep "pocketbase serve") with h | h <;>
      simp only [checkRunningPBInstances, checkRunningPBInstancesBody, posixPidsEnv,
        hp, h]
    · simp [reportsRunning]
    · generalize trimStr ((env.pgrep "pocketbase serve").stdout.getD "") = s
      by_cases ht : trimStr s = ""
      · rw [posixPidsOf_trim_empty s ht]
        simp [ht, reportsRunning]
      · by_cases hl : 0 < ((posixPidsOf s).filter (isValidPocketbaseProcess env)).length
        · rw [filter_length_pos_iff] at hl
          cases e <;> simp [ht, hl, filter_length_pos_iff, reportsRunning]
        · rw [filter_length_pos_iff] at hl
          simp [ht, hl, filter_length_pos_iff, reportsRunning]
  · intro hp hf
    rcases hf with h | ⟨s, h, ht⟩ <;>
      simp only [checkRunningPBInstances, checkRunningPBInstancesBody, hp, h]
    simp [ht]
  · intro hp
    rcases executeCommand_false_cases (env.tasklistImage "pocketbase") with h | h <;>
      simp only [checkRunningPBInstances, checkRunningPBInstancesBody, hp, h]
    · simp [reportsRunning]
    · generalize trimStr ((env.tasklistImage "pocketbase").stdout.getD "") = s
      by_cases ht1 : trimStr s = "" <;>
        rcases Bool.eq_false_or_eq_true (containsSub s "No tasks are running")
          with ht2 | ht2 <;>
        by_cases hw : winPidsOf s = [] <;>
        cases e <;>
        simp [ht1, ht2, hw, List.length_pos, reportsRunning]
  · intro env' h1 h2 h3
    simp only [checkRunningPBInstances, checkRunningPBInstancesBody, h1, h2, h3]

/-- Witness for `C4_probe_verification`: the demo probe reports running, so
some parsed pid verifies genuine. -/
theorem C4_witness :
    ∃ p ∈ posixPidsEnv envDemo, isValidPocketbaseProcess envDemo p = true :=
  ((C4_probe_verification envDemo false).1 rfl).mp (by decide)

/-- C7: the Terminator never raises — every call returns a value; a keyword
with no matching process (failed `pgrep` on POSIX, a "No tasks are running"
listing on Windows) returns `undefined`; and on POSIX, when `pgrep` matches
and `pkill` succeeds, it returns the first matched pid (the leading digit
run of the `pgrep` output) parsed as an integer. -/
theorem C7_terminator (env : Env) :
    (∀ arg, ∃ v, killExistingProcess env arg = .ok v)
  ∧ (∀ k, env.platform = .posix →
      executeCommand (env.pgrep k) false = .thrown →
      killExistingProcess env (.keyword k) = .ok none)
  ∧ (∀ k s, env.platform = .win32 →
      executeCommand (env.tasklistImage k) false = .ok s →
      containsSub s "No tasks are running" = true →
      killExistingProcess env (.keyword k) = .ok none)
  ∧ (∀ k s t l₁ l₂, env.platform = .posix →
      executeCommand (env.pgrep k) false = .ok s →
      s.data = l₁ ++ l₂ → l₁ ≠ [] → (∀ c ∈ l₁, c.isDigit = true) →
      (l₂ = [] ∨ l₂.head? = some '\n') →
      executeCommand (env.pkill k) false = .ok t →
      killExistingProcess env (.keyword k) =
        .ok (some (.int (digitsToNat l₁)))) := by
  refine ⟨killExistingProcess_ok env, ?_, ?_, ?_⟩
  · intro k hp h
    simp [killExistingProcess, killExistingProcessBody, hp, h]
  · intro k s hp h hc
    simp [killExistingProcess, killExistingProcessBody, hp, h, hc]
  · intro k s t l₁ l₂ hp hpg hdata h1 h2 h3 hpk
    have hs : s ≠ "" := by
      intro he
      rw [he] at hdata
      have h0 : l₁ ++ l₂ = ([] : List Char) := hdata.symm
      exact h1 (List.append_eq_nil.mp h0).1
    simp only [killExistingProcess, killExistingProcessBody, hp, hpg, hpk]
    simp [hs, parseIntJS_leading_digits s l₁ l₂ hdata h1 h2 h3]

/-- Witness for `C7_terminator`: on the demo table, terminating by the
keyword `pocketbase` kills and reports the first matched pid, 123. -/
theorem C7_witness :
    killExistingProcess envDemo (.keyword "pocketbase") = .ok (some (.int 123)) :=
  (C7_terminator envDemo).2.2.2 "pocketbase" "123\n456" ""
    ['1', '2', '3'] ['\n', '4', '5', '6'] rfl (by decide) (by decide)
    (by decide) (by decide) (Or.inr (by decide)) (by decide)

/-- C10: the cleanup capability of `getPBInstance` is non-null only for a
launch performed by that very call — with `createNewInstance = false` the
result is `null` regardless of the process table, a probe that finds an
instance running makes `startPocketbase` return `null`, and any returned
pid is exactly the pid of a fresh launch performed after the probe reported
nothing running. -/
theorem C10_handle_only_own_launch (env : Env) :
    getPBInstanceKillPB env false = (if env.authOk then .ok none else .exited 1)
  ∧ (checkRunningPBInstances env false = .ok true →
      startPocketbase env = .alreadyRunning ∧
        ∀ p, getPBInstanceKillPB env true ≠ .ok (some p))
  ∧ (∀ b p, getPBInstanceKillPB env b = .ok (some p) →
      b = true ∧ env.launch = .ok p ∧
        checkRunningPBInstances env false = .ok false) := by
  refine ⟨?_, ?_, ?_⟩
  · simp [getPBInstanceKillPB]
  · intro hc
    have hs : startPocketbase env = .alreadyRunning := by
      simp [startPocketbase, hc]
    refine ⟨hs, fun p => ?_⟩
    by_cases ha : env.authOk = true <;>
      simp [getPBInstanceKillPB, hs, ha]
  · intro b p h
    cases b
    · by_cases ha : env.authOk = true <;>
        simp [getPBInstanceKillPB, ha] at h
    · cases hsp : startPocketbase env with
      | alreadyRunning =>
        by_cases ha : env.authOk = true <;>
          simp [getPBInstanceKillPB, hsp, ha] at h
      | started pid =>
        by_cases ha : env.authOk = true <;>
          simp [getPBInstanceKillPB, hsp, ha] at h
        cases hc : checkRunningPBInstances env false with
        | ok bb =>
          cases bb
          · cases hl : env.launch with
            | ok pid2 =>
              have hpe : pid2 = pid := by
                have hx := hsp
                simp [startPocketbase, hc, hl] at hx
                exact hx
              refine ⟨rfl, ?_, rfl⟩
              rw [hpe, h]
            | error msg => simp [startPocketbase, hc, hl] at hsp
          · simp [startPocketbase, hc] at hsp
        | thrown => simp [startPocketbase, hc] at hsp
        | exited c => simp [startPocketbase, hc] at hsp
      | fatalExit c =>
        by_cases ha : env.authOk = true <;>
          simp [getPBInstanceKillPB, hsp, ha] at h

/-- Witness for `C10_handle_only_own_launch`: on the demo environment the
probe finds an instance, so the launch handle stays empty. -/
theorem C10_witness :
    startPocketbase envDemo = .alreadyRunning ∧
      ∀ p, getPBInstanceKillPB envDemo true ≠ .ok (some p) :=
  (C10_handle_only_own_launch envDemo).2.1 (by decide)
